import Mathlib

/-!
# The `check` command of the registry image resource

A shallow embedding of `cmd/check/main.go`.  The program is one `main`
function that talks to three outside parties: standard input (the request),
the cloud provider's token endpoint, and the container registry.  Each outside
party is a field of `World`; `main` is a pure function from a `World` to the
observable behaviour of one process run (`Process`): exit status, what was
written to standard output, what was logged to standard error, and the
ordered list of network calls that were made.
-/

namespace Check

/-! ## Strings helpers from the Go standard library -/

/-- Worker of `Replace`: walks the text once; `skip` counts the characters of
an occurrence of `old` that are still to be dropped. -/
def replaceAux (old new : List Char) : Nat → List Char → List Char
  | _, [] => []
  | skip + 1, _ :: cs => replaceAux old new skip cs
  | 0, c :: cs =>
    if old.isPrefixOf (c :: cs) then new ++ replaceAux old new (old.length - 1) cs
    else c :: replaceAux old new 0 cs

/-- Go `strings.Replace(s, old, new, -1)`: every non-overlapping occurrence of
`old` in `s`, left to right, is replaced by `new`.  For an empty `old` the
replacement is inserted before every character and at the end. -/
def Replace (s old new : String) : String :=
  if old.data = [] then ⟨new.data ++ s.data.flatMap (fun c => c :: new.data)⟩
  else ⟨replaceAux old.data new.data 0 s.data⟩

/-- Go `strings.Join(elems, sep)`. -/
def Join (elems : List String) (sep : String) : String :=
  match elems with
  | [] => ""
  | e :: es => es.foldl (fun acc x => acc ++ sep ++ x) e

/-! ## Data model -/

/-- Modelled from the spec: `resource.Version` is declared outside
`cmd/check/main.go`; the spec gives it the single field `digest`. -/
structure Version where
  Digest : String
deriving DecidableEq, Repr

/-- Modelled from the spec: `resource.Source` is declared outside
`cmd/check/main.go`.  The fields `Repository`, `Username`, `Password` and `Ecr`
are the ones `main` reads and writes; `Tag` and `Region` are the remaining
fields the spec lists.  An absent string field decodes to the empty string. -/
structure Source where
  Repository : String
  Tag : String
  Username : String
  Password : String
  Ecr : Bool
  Region : String
deriving DecidableEq, Repr

/-- Modelled from the spec: the method `Source.Name()` is declared outside
`cmd/check/main.go`; the coordinate is `repository:tag` and the tag defaults to
`latest`. -/
def Source.Name (s : Source) : String :=
  s.Repository ++ ":" ++ (if s.Tag = "" then "latest" else s.Tag)

/-- The request read from standard input; `Version` is a pointer in the
source, `none` is the nil pointer. -/
structure CheckRequest where
  Source : Source
  Version : Option Version
deriving DecidableEq, Repr

/-- The response written to standard output. -/
abbrev CheckResponse := List Version

/-- A parsed registry reference (`name.Reference`), identified by its
fully-qualified text. -/
structure Reference where
  text : String
deriving DecidableEq, Repr

/-- Basic credentials (`authn.Basic`). -/
structure Basic where
  Username : String
  Password : String
deriving DecidableEq, Repr

/-- The HTTP transports a registry call can be given.  `RetryTransport` is
`resource.RetryTransport`, the only transport `main` names. -/
inductive Transport where
  | RetryTransport
deriving DecidableEq, Repr

/-- An option passed to `remote.Image`. -/
inductive ImageOption where
  | WithTransport (t : Transport)
  | WithAuth (auth : Basic)
deriving DecidableEq, Repr

/-- One entry of the error list of a registry error (`remote.Error.Errors`). -/
structure Diagnostic where
  Code : String
  Message : String
deriving DecidableEq, Repr

/-- A Go `error` coming back from a registry call: either a `*remote.Error`
with its list of diagnostics, or any other error.  `text` is what `Error()`
returns. -/
inductive FetchError where
  | remote (Errors : List Diagnostic) (text : String)
  | other (text : String)
deriving DecidableEq, Repr

/-- What `Error()` returns. -/
def FetchError.Error : FetchError → String
  | .remote _ text => text
  | .other text => text

/-- A Go `error` coming back from the token endpoint: either an
`awserr.Error` with its `Code()` and `Error()`, or any other error. -/
inductive TokenError where
  | awserr (Code : String) (Error : String)
  | other (Error : String)
deriving DecidableEq, Repr

/-- One element of `GetAuthorizationTokenOutput.AuthorizationData`; both fields
are pointers in the SDK, `none` is the nil pointer. -/
structure AuthorizationData where
  AuthorizationToken : Option String
  ProxyEndpoint : Option String
deriving DecidableEq, Repr

/-- The result of `ecr.GetAuthorizationToken`. -/
structure GetAuthorizationTokenOutput where
  AuthorizationData : List AuthorizationData
deriving DecidableEq, Repr

/-- The lazily opened remote image (`v1.Image`): `Digest` is the outcome of
calling `Digest()` on it (the digest in its `String()` form). -/
structure Image where
  Digest : Except FetchError String

/-- `remote.ManifestUnknownErrorCode`. -/
def ManifestUnknownErrorCode : String := "MANIFEST_UNKNOWN"

/-- `ecr.ErrCodeServerException`. -/
def ErrCodeServerException : String := "ServerException"

/-- `ecr.ErrCodeInvalidParameterException`. -/
def ErrCodeInvalidParameterException : String := "InvalidParameterException"

/-! ## The outside world and the observable behaviour -/

/-- A network call made by the process: the token call with the region of
its client, `remote.Image` with its reference and options, and `Digest()` on
the image opened for the given reference. -/
inductive Call where
  | GetAuthorizationToken (region : String)
  | Image (ref : Reference) (opts : List ImageOption)
  | Digest (ref : Reference)
deriving DecidableEq, Repr

/-- Registry calls are the manifest fetches: opening an image and asking for
its digest. -/
def Call.isFetch : Call → Bool
  | .GetAuthorizationToken _ => false
  | .Image _ _ => true
  | .Digest _ => true

/-- Something written to standard output: a line of text (`fmt.Println`) or
the encoded response. -/
inductive Output where
  | line (text : String)
  | json (response : CheckResponse)
deriving DecidableEq, Repr

/-- Everything outside the program, as the answers it gives. -/
structure World where
  /-- Outcome of strictly decoding standard input into a `CheckRequest`. -/
  Decode : Except String CheckRequest
  /-- The function `name.ParseReference(s, name.WeakValidation)`. -/
  ParseReference : String → Except String Reference
  /-- Outcome of `session.NewSession()`. -/
  NewSession : Except String Unit
  /-- Answer of the token endpoint of the given region. -/
  GetAuthorizationToken : String → Except TokenError GetAuthorizationTokenOutput
  /-- Answer of `remote.Image(ref, opts...)`. -/
  RemoteImage : Reference → List ImageOption → Except FetchError Image

/-- The registry client opens images lazily: `remote.Image` only sets up the
transport (it pings the registry and negotiates a token) and requests no
manifest, so an error it returns is never a `*remote.Error`; registry errors
with their error codes come back from `Digest()`, which performs the manifest
request.  The transport package cannot even name `remote.Error`, since the
`remote` package imports it. -/
def World.LazyOpen (w : World) : Prop :=
  ∀ ref opts err, w.RemoteImage ref opts = .error err → ∃ text, err = .other text

/-- The observable behaviour of one run. -/
structure Process where
  status : Nat
  stdout : List Output
  stderr : List String
  calls : List Call

/-- Go `fmt.Println(args...)`: the line printed, the arguments separated by
blanks. -/
def Println (args : List String) : String :=
  Join args " "

/-- The pattern `logrus.Errorf(msg, err); os.Exit(1); return`. -/
def fatal (msg : String) (calls : List Call) : Process :=
  { status := 1, stdout := [], stderr := [msg], calls := calls }

/-- A Go runtime panic: the message goes to standard error, exit status 2. -/
def panicked (msg : String) (calls : List Call) : Process :=
  { status := 2, stdout := [], stderr := ["panic: " ++ msg], calls := calls }

/-- Lines 152-156: the response is encoded to standard output and `main`
returns normally. -/
def emit (response : CheckResponse) (calls : List Call) : Process :=
  { status := 0, stdout := [.json response], stderr := [], calls := calls }

/-! ## The program -/

/-- Outcome of lines 51-78 of `main`, the token exchange, with the network
calls it made. -/
inductive Login where
  /-- Execution continues at line 80 with this (possibly updated) source. -/
  | proceed (src : Source) (calls : List Call)
  /-- The error branch, lines 56-71: one line printed, then a plain `return`. -/
  | returned (printed : String) (calls : List Call)
  /-- A runtime panic (`session.Must`, an index out of range, a nil pointer). -/
  | panic (msg : String) (calls : List Call)

/-- The network calls recorded by an outcome of the token exchange. -/
def Login.calls : Login → List Call
  | .proceed _ cs => cs
  | .returned _ cs => cs
  | .panic _ cs => cs

/-- Lines 51-78 of `main`. -/
def ecrLogin (w : World) (src : Source) : Login :=
  if src.Ecr then
    match w.NewSession with
    | .error e => .panic e []
    | .ok _ =>
      match w.GetAuthorizationToken "eu-west-2" with
      | .error (.awserr code text) =>
        if code = ErrCodeServerException then
          .returned (Println [ErrCodeServerException, text]) [.GetAuthorizationToken "eu-west-2"]
        else if code = ErrCodeInvalidParameterException then
          .returned (Println [ErrCodeInvalidParameterException, text])
            [.GetAuthorizationToken "eu-west-2"]
        else
          .returned (Println [text]) [.GetAuthorizationToken "eu-west-2"]
      | .error (.other text) =>
        .returned (Println [text]) [.GetAuthorizationToken "eu-west-2"]
      | .ok result =>
        match result.AuthorizationData with
        | [] =>
          .panic "runtime error: index out of range [0] with length 0"
            [.GetAuthorizationToken "eu-west-2"]
        | data :: _ =>
          match data.AuthorizationToken, data.ProxyEndpoint with
          | some token, some endpoint =>
            .proceed
              { src with
                Username := "AWS"
                Password := token
                Repository := Join [Replace endpoint "https://" "", src.Repository] "/" }
              [.GetAuthorizationToken "eu-west-2"]
          | _, _ =>
            .panic "runtime error: invalid memory address or nil pointer dereference"
              [.GetAuthorizationToken "eu-west-2"]
  else
    .proceed src []

/-- Lines 131-138 of `main`: the flag `missingDigest` after the loop over the
error list; it stays `false` when the error is not a `*remote.Error`. -/
def missingDigest : FetchError → Bool
  | .remote errors _ => errors.any (fun e => e.Code == ManifestUnknownErrorCode)
  | .other _ => false

/-- Lines 85-91 of `main`: the options of the fetch of the current digest. -/
def imageOpts (auth : Basic) : List ImageOption :=
  [ImageOption.WithTransport Transport.RetryTransport] ++
    (if auth.Username ≠ "" ∧ auth.Password ≠ "" then [ImageOption.WithAuth auth] else [])

/-- Lines 117-121 of `main`: the options of the fetch of the pinned
reference. -/
def digestOpts (auth : Basic) : List ImageOption :=
  if auth.Username ≠ "" ∧ auth.Password ≠ "" then [ImageOption.WithAuth auth] else []

/-- The function `main` of `cmd/check/main.go`. -/
def main (w : World) : Process :=
  match w.Decode with
  | .error err => fatal ("invalid payload: " ++ err) []
  | .ok req =>
  match w.ParseReference req.Source.Name with
  | .error err => fatal ("could not resolve repository/tag reference: " ++ err) []
  | .ok n =>
  match ecrLogin w req.Source with
  | .panic msg cs => panicked msg cs
  | .returned printed cs =>
    { status := 0, stdout := [.line printed], stderr := [], calls := cs }
  | .proceed src cs =>
  let auth : Basic := { Username := src.Username, Password := src.Password }
  match w.RemoteImage n (imageOpts auth) with
  | .error err =>
    fatal ("failed to get remote image: " ++ err.Error) (cs ++ [.Image n (imageOpts auth)])
  | .ok image =>
  match image.Digest with
  | .error err =>
    fatal ("failed get image digest: " ++ err.Error)
      (cs ++ [.Image n (imageOpts auth), .Digest n])
  | .ok digest =>
  let cs1 := cs ++ [.Image n (imageOpts auth), .Digest n]
  match req.Version with
  | none => emit [{ Digest := digest }] cs1
  | some version =>
  if version.Digest ≠ digest then
    match w.ParseReference (src.Repository ++ "@" ++ version.Digest) with
    | .error err => fatal ("could not resolve repository/digest reference: " ++ err) cs1
    | .ok digestRef =>
    match w.RemoteImage digestRef (digestOpts auth) with
    | .error err =>
      fatal ("failed to get remote image: " ++ err.Error)
        (cs1 ++ [.Image digestRef (digestOpts auth)])
    | .ok digestImage =>
    let cs2 := cs1 ++ [.Image digestRef (digestOpts auth), .Digest digestRef]
    match digestImage.Digest with
    | .error err =>
      if missingDigest err then emit [{ Digest := digest }] cs2
      else fatal ("failed to get cursor image digest: " ++ err.Error) cs2
    | .ok _ => emit [version, { Digest := digest }] cs2
  else emit [{ Digest := digest }] cs1

/-! ## Concrete runs -/

/-- The digest of the prior version in the concrete runs. -/
def oldDigest : String :=
  "sha256:bb325fa6dcd25be92ef590058ade9e4b0b03a47711d1f1dbe2a6221db1e58a22"

/-- The digest the tag resolves to in the concrete runs. -/
def newDigest : String :=
  "sha256:23578e9777b7b61912ff00373a345d8157c46cbb5dd1629e9c4727c604573867"

/-- A well-formed digest: `sha256:` followed by 64 lower-case hexadecimal
digits. -/
def validDigest (cs : List Char) : Bool :=
  "sha256:".data.isPrefixOf cs
    && (cs.drop 7).length == 64
    && (cs.drop 7).all (fun c => c.isDigit || (decide ('a' ≤ c) && decide (c ≤ 'f')))

/-- The reference parser of the concrete runs: it keeps the text of the
coordinate, and rejects a digest-pinned coordinate (one with an `@`) whose
digest is not well-formed. -/
def parseCoordinate (s : String) : Except String Reference :=
  match s.data.dropWhile (fun c => c != '@') with
  | [] => .ok { text := s }
  | _ :: digest =>
    if validDigest digest then .ok { text := s }
    else .error "unsupported digest algorithm"

/-- The source of the scenarios of the spec: `library/busybox`, no tag, no
credentials, no token exchange. -/
def busybox : Source :=
  { Repository := "library/busybox", Tag := "", Username := "", Password := "",
    Ecr := false, Region := "" }

/-- A registry on which the tag resolves to `newDigest`; `pinned` is the
answer to opening any other (that is, the digest-pinned) reference. -/
def registry (pinned : Except FetchError Image) (ref : Reference)
    (_opts : List ImageOption) : Except FetchError Image :=
  if ref.text = "library/busybox:latest" then .ok { Digest := .ok newDigest } else pinned

/-- A run on `busybox` with the given prior version and the given answer for
the pinned reference. -/
def busyboxWorld (version : Option Version) (pinned : Except FetchError Image) : World :=
  { Decode := .ok { Source := busybox, Version := version }
    ParseReference := parseCoordinate
    NewSession := .ok ()
    GetAuthorizationToken := fun _ => .error (.other "no credentials")
    RemoteImage := registry pinned }

/-- The run `busyboxWorld` with static credentials in the source. -/
def staticWorld (username password : String) (version : Option Version)
    (pinned : Except FetchError Image) : World :=
  { busyboxWorld version pinned with
    Decode := .ok
      { Source := { busybox with Username := username, Password := password },
        Version := version } }

/-- The run `busyboxWorld` against a registry that cannot be reached. -/
def unreachableWorld (version : Option Version) : World :=
  { busyboxWorld version (.error (.other "connection refused")) with
    RemoteImage := fun _ _ => .error (.other "connection refused") }

/-- The registry error that reports an unknown manifest. -/
def manifestUnknown : FetchError :=
  .remote [{ Code := "MANIFEST_UNKNOWN", Message := "manifest unknown" }]
    "MANIFEST_UNKNOWN: manifest unknown"

/-- A source with the token exchange enabled: repository path `team/app`,
region as given. -/
def ecrSource (region : String) : Source :=
  { Repository := "team/app", Tag := "", Username := "", Password := "",
    Ecr := true, Region := region }

/-- A run on `ecrSource region` with prior version `oldDigest`: the token
endpoint gives the answer `token` in every region, every reference parses, and
the registry resolves every pinned reference (one with an `@`) to
`oldDigest` and every other reference to `newDigest`. -/
def ecrWorld (region : String) (token : Except TokenError GetAuthorizationTokenOutput) :
    World :=
  { Decode := .ok { Source := ecrSource region, Version := some ⟨oldDigest⟩ }
    ParseReference := parseCoordinate
    NewSession := .ok ()
    GetAuthorizationToken := fun _ => token
    RemoteImage := fun ref _ =>
      if ref.text.data.contains '@' then .ok { Digest := .ok oldDigest }
      else .ok { Digest := .ok newDigest } }

/-- A successful answer of the token endpoint: one authorization datum with a
token and the proxy endpoint of the account registry. -/
def tokenGranted : Except TokenError GetAuthorizationTokenOutput :=
  .ok { AuthorizationData :=
    [{ AuthorizationToken := some "QVdTOnNlY3JldA=="
       ProxyEndpoint := some "https://123456789012.dkr.ecr.eu-west-2.amazonaws.com" }] }

/-! ## Helper lemmas -/

/-- The token exchange never performs a registry fetch, and when it lets the
run continue it made at most the one token call to `eu-west-2`. -/
theorem ecrLogin_proceed_calls (w : World) (s src : Source) (cs : List Call)
    (h : ecrLogin w s = .proceed src cs) :
    cs = [] ∨ cs = [Call.GetAuthorizationToken "eu-west-2"] := by
  unfold ecrLogin at h
  split at h
  · split at h
    · cases h
    · split at h
      · split at h
        · cases h
        · split at h <;> cases h
      · cases h
      · split at h
        · cases h
        · split at h
          · cases h; exact Or.inr rfl
          · cases h
  · cases h; exact Or.inl rfl

/-- The calls of a token exchange that lets the run continue contain no
registry fetch. -/
theorem ecrLogin_proceed_no_fetch (w : World) (s src : Source) (cs : List Call)
    (h : ecrLogin w s = .proceed src cs) : cs.filter Call.isFetch = [] := by
  rcases ecrLogin_proceed_calls w s src cs h with rfl | rfl <;> rfl

/-- Whatever the outcome of the token exchange, the only call it can have made
is the token call to `eu-west-2`. -/
theorem ecrLogin_calls (w : World) (s : Source) :
    (ecrLogin w s).calls = [] ∨ (ecrLogin w s).calls = [Call.GetAuthorizationToken "eu-west-2"] := by
  unfold ecrLogin
  split
  · split
    · exact Or.inl rfl
    · split
      · split
        · exact Or.inr rfl
        · split <;> exact Or.inr rfl
      · exact Or.inr rfl
      · split
        · exact Or.inr rfl
        · split <;> exact Or.inr rfl
  · exact Or.inl rfl

/-- With the exchange enabled and a session at hand, the token call to
`eu-west-2` is made. -/
theorem ecrLogin_calls_of_ecr (w : World) (s : Source) (hecr : s.Ecr = true)
    (hs : w.NewSession = .ok ()) :
    (ecrLogin w s).calls = [Call.GetAuthorizationToken "eu-west-2"] := by
  unfold ecrLogin
  rw [if_pos hecr, hs]
  simp only
  split
  · split
    · rfl
    · split <;> rfl
  · rfl
  · split
    · rfl
    · split <;> rfl

/-- Once the request is decoded and the tag reference parsed, the calls of a
run are those of the token exchange followed by registry fetches only. -/
theorem main_calls (w : World) (req : CheckRequest) (n : Reference)
    (hreq : w.Decode = .ok req) (hn : w.ParseReference req.Source.Name = .ok n) :
    ∃ rest, (main w).calls = (ecrLogin w req.Source).calls ++ rest
      ∧ ∀ c ∈ rest, c.isFetch = true := by
  unfold main
  simp only [hreq, hn]
  cases hl : ecrLogin w req.Source with
  | panic msg cs => exact ⟨[], by simp [panicked, Login.calls]⟩
  | returned printed cs => exact ⟨[], by simp [Login.calls]⟩
  | proceed src cs =>
    simp only [Login.calls]
    split
    · exact ⟨_, rfl, by simp [Call.isFetch]⟩
    · split
      · exact ⟨_, rfl, by simp [Call.isFetch]⟩
      · split
        · exact ⟨_, rfl, by simp [Call.isFetch]⟩
        · split
          · split
            · exact ⟨_, rfl, by simp [Call.isFetch]⟩
            · split
              · exact ⟨_, by simp only [fatal, List.append_assoc]; rfl, by simp [Call.isFetch]⟩
              · split
                · split
                  · exact ⟨_, by simp only [emit, List.append_assoc]; rfl, by simp [Call.isFetch]⟩
                  · exact ⟨_, by simp only [fatal, List.append_assoc]; rfl, by simp [Call.isFetch]⟩
                · exact ⟨_, by simp only [emit, List.append_assoc]; rfl, by simp [Call.isFetch]⟩
          · exact ⟨_, rfl, by simp [Call.isFetch]⟩

/-- Once the current digest `d` is fetched, a run ends in one of three ways:
it writes `[Version d]`, it writes `[prior, Version d]` for the prior version
of the request, or it exits with status 1 having written nothing. -/
theorem main_after_digest (w : World) (req : CheckRequest) (n : Reference) (src : Source)
    (cs : List Call) (image : Image) (d : String)
    (hreq : w.Decode = .ok req)
    (hn : w.ParseReference req.Source.Name = .ok n)
    (hlogin : ecrLogin w req.Source = .proceed src cs)
    (himage : w.RemoteImage n (imageOpts ⟨src.Username, src.Password⟩) = .ok image)
    (hd : image.Digest = .ok d) :
    ((main w).status = 0 ∧ (main w).stdout = [Output.json [{ Digest := d }]])
    ∨ ((main w).status = 0 ∧ ∃ prior, req.Version = some prior
        ∧ (main w).stdout = [Output.json [prior, { Digest := d }]])
    ∨ ((main w).status = 1 ∧ (main w).stdout = []) := by
  cases hv : req.Version with
  | none => exact Or.inl (by simp [main, hreq, hn, hlogin, himage, hd, hv, emit])
  | some version =>
    by_cases hne : version.Digest = d
    · exact Or.inl (by simp [main, hreq, hn, hlogin, himage, hd, hv, hne, emit])
    · cases hp : w.ParseReference (src.Repository ++ "@" ++ version.Digest) with
      | error e =>
        exact Or.inr (Or.inr (by simp [main, hreq, hn, hlogin, himage, hd, hv, hne, hp, fatal]))
      | ok digestRef =>
        cases hi : w.RemoteImage digestRef (digestOpts ⟨src.Username, src.Password⟩) with
        | error e =>
          exact Or.inr (Or.inr
            (by simp [main, hreq, hn, hlogin, himage, hd, hv, hne, hp, hi, fatal]))
        | ok digestImage =>
          cases hdd : digestImage.Digest with
          | error e =>
            cases hm : missingDigest e
            · exact Or.inr (Or.inr
                (by simp [main, hreq, hn, hlogin, himage, hd, hv, hne, hp, hi, hdd, hm, fatal]))
            · exact Or.inl
                (by simp [main, hreq, hn, hlogin, himage, hd, hv, hne, hp, hi, hdd, hm, emit])
          | ok d0 =>
            exact Or.inr (Or.inl
              (by simp [main, hreq, hn, hlogin, himage, hd, hv, hne, hp, hi, hdd, emit]))

/-- Every call that opens an image is given either the options of the current
fetch or the options of the pinned fetch, both built from the credentials the
token exchange left in the source. -/
theorem main_image_calls (w : World) (req : CheckRequest) (n : Reference) (src : Source)
    (cs : List Call)
    (hreq : w.Decode = .ok req)
    (hn : w.ParseReference req.Source.Name = .ok n)
    (hlogin : ecrLogin w req.Source = .proceed src cs) :
    ∀ ref opts, Call.Image ref opts ∈ (main w).calls →
      opts = imageOpts ⟨src.Username, src.Password⟩
        ∨ opts = digestOpts ⟨src.Username, src.Password⟩ := by
  have hcs : ∀ ref opts, Call.Image ref opts ∉ cs := by
    intro ref opts hmem
    rcases ecrLogin_proceed_calls w req.Source src cs hlogin with h | h <;> simp [h] at hmem
  intro ref opts
  unfold main
  simp only [hreq, hn, hlogin]
  split
  · simp [fatal, hcs]; tauto
  · split
    · simp [fatal, hcs]; tauto
    · split
      · simp [emit, hcs]; tauto
      · split
        · split
          · simp [fatal, hcs]; tauto
          · split
            · simp [fatal, hcs]; tauto
            · split
              · split
                · simp [emit, hcs]; tauto
                · simp [fatal, hcs]; tauto
              · simp [emit, hcs]; tauto
        · simp [emit, hcs]; tauto

/-! ## The version reconciler -/

/-- C1: when the request decodes, the reference resolves, the current digest
is fetched as `d`, the prior version has another digest, and the pinned
reference `repository@priorDigest` parses, opens and yields a digest, the run
succeeds and writes exactly the response `[prior, Version d]`. -/
theorem prior_kept_when_it_still_resolves (w : World) (req : CheckRequest) (n : Reference)
    (src : Source) (cs : List Call) (image : Image) (d : String) (prior : Version)
    (digestRef : Reference) (digestImage : Image) (d0 : String)
    (hreq : w.Decode = .ok req)
    (hn : w.ParseReference req.Source.Name = .ok n)
    (hlogin : ecrLogin w req.Source = .proceed src cs)
    (himage : w.RemoteImage n (imageOpts ⟨src.Username, src.Password⟩) = .ok image)
    (hd : image.Digest = .ok d)
    (hprior : req.Version = some prior)
    (hne : prior.Digest ≠ d)
    (hdref : w.ParseReference (src.Repository ++ "@" ++ prior.Digest) = .ok digestRef)
    (hdimg : w.RemoteImage digestRef (digestOpts ⟨src.Username, src.Password⟩) = .ok digestImage)
    (hdd : digestImage.Digest = .ok d0) :
    (main w).stdout = [Output.json [prior, { Digest := d }]] ∧ (main w).status = 0 := by
  simp [main, hreq, hn, hlogin, himage, hd, hprior, hne, hdref, hdimg, hdd, emit]

/-- Witness of C1: the scenario of the spec, prior `oldDigest`, fresh
`newDigest`, the pinned fetch succeeds. -/
theorem prior_kept_when_it_still_resolves_witness :
    (main (busyboxWorld (some ⟨oldDigest⟩) (.ok ⟨.ok oldDigest⟩))).stdout
        = [Output.json [⟨oldDigest⟩, ⟨newDigest⟩]]
      ∧ (main (busyboxWorld (some ⟨oldDigest⟩) (.ok ⟨.ok oldDigest⟩))).status = 0 :=
  prior_kept_when_it_still_resolves
    (busyboxWorld (some ⟨oldDigest⟩) (.ok ⟨.ok oldDigest⟩))
    { Source := busybox, Version := some ⟨oldDigest⟩ } ⟨"library/busybox:latest"⟩
    busybox [] ⟨.ok newDigest⟩ newDigest ⟨oldDigest⟩
    ⟨"library/busybox@" ++ oldDigest⟩ ⟨.ok oldDigest⟩ oldDigest
    rfl rfl rfl rfl rfl rfl (by decide) rfl rfl rfl

/-- C2: when the current digest is fetched as `d`, the prior version has
another digest, the pinned reference parses, and the fetch of the pinned
reference fails with a registry error whose list carries the manifest-unknown
code, whether `remote.Image` or `Digest()` is the step that returns it, the run
succeeds and writes exactly `[Version d]`.  The registry client is the lazy
one (`World.LazyOpen`), so the step that can return a registry error is
`Digest()`. -/
theorem prior_dropped_when_pinned_fetch_reports_manifest_unknown (w : World)
    (req : CheckRequest) (n : Reference) (src : Source) (cs : List Call) (image : Image)
    (d : String) (prior : Version) (digestRef : Reference)
    (errors : List Diagnostic) (text : String)
    (hlazy : w.LazyOpen)
    (hreq : w.Decode = .ok req)
    (hn : w.ParseReference req.Source.Name = .ok n)
    (hlogin : ecrLogin w req.Source = .proceed src cs)
    (himage : w.RemoteImage n (imageOpts ⟨src.Username, src.Password⟩) = .ok image)
    (hd : image.Digest = .ok d)
    (hprior : req.Version = some prior)
    (hne : prior.Digest ≠ d)
    (hdref : w.ParseReference (src.Repository ++ "@" ++ prior.Digest) = .ok digestRef)
    (hfetch :
      w.RemoteImage digestRef (digestOpts ⟨src.Username, src.Password⟩)
          = .error (.remote errors text)
      ∨ ∃ digestImage,
          w.RemoteImage digestRef (digestOpts ⟨src.Username, src.Password⟩) = .ok digestImage
          ∧ digestImage.Digest = .error (.remote errors text))
    (hcode : ∃ e ∈ errors, e.Code = ManifestUnknownErrorCode) :
    (main w).stdout = [Output.json [{ Digest := d }]] ∧ (main w).status = 0 := by
  rcases hfetch with hopen | ⟨digestImage, hdimg, hdd⟩
  · obtain ⟨t, ht⟩ := hlazy _ _ _ hopen
    cases ht
  · have hmiss : missingDigest (.remote errors text) = true := by
      obtain ⟨e, he, hc⟩ := hcode
      simp only [missingDigest, List.any_eq_true]
      exact ⟨e, he, by simp [hc]⟩
    simp [main, hreq, hn, hlogin, himage, hd, hprior, hne, hdref, hdimg, hdd, hmiss, emit]

/-- Witness of C2: the scenario of the spec, prior `oldDigest`, fresh
`newDigest`, the digest of the pinned image is manifest-unknown. -/
theorem prior_dropped_when_pinned_fetch_reports_manifest_unknown_witness :
    (main (busyboxWorld (some ⟨oldDigest⟩) (.ok ⟨.error manifestUnknown⟩))).stdout
        = [Output.json [⟨newDigest⟩]]
      ∧ (main (busyboxWorld (some ⟨oldDigest⟩) (.ok ⟨.error manifestUnknown⟩))).status = 0 :=
  prior_dropped_when_pinned_fetch_reports_manifest_unknown
    (busyboxWorld (some ⟨oldDigest⟩) (.ok ⟨.error manifestUnknown⟩))
    { Source := busybox, Version := some ⟨oldDigest⟩ } ⟨"library/busybox:latest"⟩
    busybox [] ⟨.ok newDigest⟩ newDigest ⟨oldDigest⟩
    ⟨"library/busybox@" ++ oldDigest⟩
    [⟨"MANIFEST_UNKNOWN", "manifest unknown"⟩] "MANIFEST_UNKNOWN: manifest unknown"
    (by
      intro ref opts err h
      simp only [busyboxWorld, registry] at h
      split at h <;> cases h)
    rfl rfl rfl rfl rfl rfl (by decide) rfl
    (Or.inr ⟨⟨.error manifestUnknown⟩, rfl, rfl⟩)
    ⟨⟨"MANIFEST_UNKNOWN", "manifest unknown"⟩, by simp, rfl⟩

/-- C3: when the current digest is fetched as `d` and the request carries no
prior version, or a prior version whose digest equals `d`, the run succeeds and
writes exactly `[Version d]` (which is the input version when there is one),
and the only registry fetches of the run are the two calls on the tag
reference: nothing is fetched for a digest-pinned reference. -/
theorem single_version_without_pinned_fetch (w : World) (req : CheckRequest) (n : Reference)
    (src : Source) (cs : List Call) (image : Image) (d : String)
    (hreq : w.Decode = .ok req)
    (hn : w.ParseReference req.Source.Name = .ok n)
    (hlogin : ecrLogin w req.Source = .proceed src cs)
    (himage : w.RemoteImage n (imageOpts ⟨src.Username, src.Password⟩) = .ok image)
    (hd : image.Digest = .ok d)
    (hprior : req.Version = none ∨ ∃ prior, req.Version = some prior ∧ prior.Digest = d) :
    (main w).stdout = [Output.json [{ Digest := d }]]
      ∧ (main w).status = 0
      ∧ (∀ prior, req.Version = some prior → (main w).stdout = [Output.json [prior]])
      ∧ (main w).calls.filter Call.isFetch
          = [Call.Image n (imageOpts ⟨src.Username, src.Password⟩), Call.Digest n] := by
  have hcs := ecrLogin_proceed_no_fetch w req.Source src cs hlogin
  rcases hprior with hnone | ⟨prior, hsome, heq⟩
  · simp [main, hreq, hn, hlogin, himage, hd, hnone, emit, List.filter_append, hcs,
      Call.isFetch]
  · subst heq
    simp [main, hreq, hn, hlogin, himage, hd, hsome, emit, List.filter_append, hcs,
      Call.isFetch]

/-- Witness of C3: the prior version equals the fresh digest `newDigest`; the
answer for a pinned reference is an error that is never asked for. -/
theorem single_version_without_pinned_fetch_witness :
    (main (busyboxWorld (some ⟨newDigest⟩) (.error (.other "unreachable")))).stdout
        = [Output.json [⟨newDigest⟩]]
      ∧ (main (busyboxWorld (some ⟨newDigest⟩) (.error (.other "unreachable")))).status = 0
      ∧ (main (busyboxWorld (some ⟨newDigest⟩)
            (.error (.other "unreachable")))).calls.filter Call.isFetch
          = [Call.Image ⟨"library/busybox:latest"⟩ (imageOpts ⟨"", ""⟩),
              Call.Digest ⟨"library/busybox:latest"⟩] :=
  have h := single_version_without_pinned_fetch
    (busyboxWorld (some ⟨newDigest⟩) (.error (.other "unreachable")))
    { Source := busybox, Version := some ⟨newDigest⟩ } ⟨"library/busybox:latest"⟩
    busybox [] ⟨.ok newDigest⟩ newDigest
    rfl rfl rfl rfl rfl (Or.inr ⟨⟨newDigest⟩, rfl, rfl⟩)
  ⟨h.1, h.2.1, h.2.2.2⟩

/-- C4: when the current digest is fetched as `d`, the prior version has
another digest, and the prior-digest path fails other than by manifest-unknown
(the pinned reference does not parse, or the pinned image does not open, or
asking it for its digest fails with an error that is not a registry error or
whose list carries no manifest-unknown code), the run exits with status 1 and
writes nothing to standard output. -/
theorem prior_path_failure_is_fatal (w : World) (req : CheckRequest) (n : Reference)
    (src : Source) (cs : List Call) (image : Image) (d : String) (prior : Version)
    (hreq : w.Decode = .ok req)
    (hn : w.ParseReference req.Source.Name = .ok n)
    (hlogin : ecrLogin w req.Source = .proceed src cs)
    (himage : w.RemoteImage n (imageOpts ⟨src.Username, src.Password⟩) = .ok image)
    (hd : image.Digest = .ok d)
    (hprior : req.Version = some prior)
    (hne : prior.Digest ≠ d)
    (hfail :
      (∃ err, w.ParseReference (src.Repository ++ "@" ++ prior.Digest) = .error err)
      ∨ (∃ digestRef err,
          w.ParseReference (src.Repository ++ "@" ++ prior.Digest) = .ok digestRef
          ∧ w.RemoteImage digestRef (digestOpts ⟨src.Username, src.Password⟩) = .error err)
      ∨ (∃ digestRef digestImage err,
          w.ParseReference (src.Repository ++ "@" ++ prior.Digest) = .ok digestRef
          ∧ w.RemoteImage digestRef (digestOpts ⟨src.Username, src.Password⟩) = .ok digestImage
          ∧ digestImage.Digest = .error err
          ∧ ((∃ text, err = .other text)
              ∨ ∃ errors text, err = .remote errors text
                  ∧ ∀ e ∈ errors, e.Code ≠ ManifestUnknownErrorCode))) :
    (main w).status = 1 ∧ (main w).status ≠ 0 ∧ (main w).stdout = [] := by
  rcases hfail with ⟨err, hp⟩ | ⟨digestRef, err, hp, hi⟩ | ⟨digestRef, digestImage, err, hp, hi, hdd, herr⟩
  · simp [main, hreq, hn, hlogin, himage, hd, hprior, hne, hp, fatal]
  · simp [main, hreq, hn, hlogin, himage, hd, hprior, hne, hp, hi, fatal]
  · have hmiss : missingDigest err = false := by
      rcases herr with ⟨text, rfl⟩ | ⟨errors, text, rfl, hall⟩
      · rfl
      · simp only [missingDigest, List.any_eq_false]
        intro e he
        simpa using hall e he
    simp [main, hreq, hn, hlogin, himage, hd, hprior, hne, hp, hi, hdd, hmiss, fatal]

/-- Witness of C4: the digest of the pinned image fails with a registry error
that says `UNAUTHORIZED`. -/
theorem prior_path_failure_is_fatal_witness :
    (main (busyboxWorld (some ⟨oldDigest⟩)
        (.ok ⟨.error (.remote [⟨"UNAUTHORIZED", "authentication required"⟩] "denied")⟩))).status = 1
      ∧ (main (busyboxWorld (some ⟨oldDigest⟩)
        (.ok ⟨.error (.remote [⟨"UNAUTHORIZED", "authentication required"⟩] "denied")⟩))).status ≠ 0
      ∧ (main (busyboxWorld (some ⟨oldDigest⟩)
        (.ok ⟨.error (.remote [⟨"UNAUTHORIZED", "authentication required"⟩] "denied")⟩))).stdout
          = [] :=
  prior_path_failure_is_fatal
    (busyboxWorld (some ⟨oldDigest⟩)
      (.ok ⟨.error (.remote [⟨"UNAUTHORIZED", "authentication required"⟩] "denied")⟩))
    { Source := busybox, Version := some ⟨oldDigest⟩ } ⟨"library/busybox:latest"⟩
    busybox [] ⟨.ok newDigest⟩ newDigest ⟨oldDigest⟩
    rfl rfl rfl rfl rfl rfl (by decide)
    (Or.inr (Or.inr ⟨⟨"library/busybox@" ++ oldDigest⟩,
      ⟨.error (.remote [⟨"UNAUTHORIZED", "authentication required"⟩] "denied")⟩,
      .remote [⟨"UNAUTHORIZED", "authentication required"⟩] "denied", rfl, rfl, rfl,
      Or.inr ⟨[⟨"UNAUTHORIZED", "authentication required"⟩], "denied", rfl, by decide⟩⟩))

/-! ## Credentials, addressing and transport -/

/-- C5, the code at the failing input: the token exchange is enabled and the
token endpoint answers with the provider error `ServerException`.  No registry
fetch is made, but the run ends with exit status 0, after printing the error
on standard output. -/
theorem token_failure_exits_with_status_zero :
    (main (ecrWorld "eu-west-2"
        (.error (.awserr "ServerException" "ServerException: internal failure")))).status = 0
    ∧ (main (ecrWorld "eu-west-2"
        (.error (.awserr "ServerException" "ServerException: internal failure")))).stdout
        = [Output.line "ServerException ServerException: internal failure"]
    ∧ (main (ecrWorld "eu-west-2"
        (.error (.awserr "ServerException" "ServerException: internal failure")))).calls
        = [Call.GetAuthorizationToken "eu-west-2"] := by
  decide

/-- C6, the code at the failing input: the token exchange succeeds with proxy
endpoint `https://123456789012.dkr.ecr.eu-west-2.amazonaws.com` for the
repository path `team/app`.  The fetch of the pinned prior version is addressed
to the prefixed repository, but the fetch of the current digest goes to the
reference parsed from the unprefixed `team/app:latest`. -/
theorem current_fetch_misses_the_proxy_endpoint :
    Join [Replace "https://123456789012.dkr.ecr.eu-west-2.amazonaws.com" "https://" "",
        "team/app"] "/" = "123456789012.dkr.ecr.eu-west-2.amazonaws.com/team/app"
    ∧ (main (ecrWorld "eu-west-2" tokenGranted)).calls =
      [Call.GetAuthorizationToken "eu-west-2",
       Call.Image ⟨"team/app:latest"⟩
         [.WithTransport .RetryTransport, .WithAuth ⟨"AWS", "QVdTOnNlY3JldA=="⟩],
       Call.Digest ⟨"team/app:latest"⟩,
       Call.Image ⟨"123456789012.dkr.ecr.eu-west-2.amazonaws.com/team/app@" ++ oldDigest⟩
         [.WithAuth ⟨"AWS", "QVdTOnNlY3JldA=="⟩],
       Call.Digest ⟨"123456789012.dkr.ecr.eu-west-2.amazonaws.com/team/app@" ++ oldDigest⟩] := by
  decide

/-- C7: in every run that reaches the fetch of the pinned reference (the
current digest is fetched as `d`, the prior version has another digest, the
pinned reference parses), the fetch of the current digest is opened with the
retrying transport among its options, and the pinned reference is opened with
options that hold no transport at all, so that call does not go through the
retrying transport. -/
theorem pinned_fetch_lacks_the_retry_transport (w : World) (req : CheckRequest)
    (n : Reference) (src : Source) (cs : List Call) (image : Image) (d : String)
    (prior : Version) (digestRef : Reference)
    (hreq : w.Decode = .ok req)
    (hn : w.ParseReference req.Source.Name = .ok n)
    (hlogin : ecrLogin w req.Source = .proceed src cs)
    (himage : w.RemoteImage n (imageOpts ⟨src.Username, src.Password⟩) = .ok image)
    (hd : image.Digest = .ok d)
    (hprior : req.Version = some prior)
    (hne : prior.Digest ≠ d)
    (hdref : w.ParseReference (src.Repository ++ "@" ++ prior.Digest) = .ok digestRef) :
    Call.Image n (imageOpts ⟨src.Username, src.Password⟩) ∈ (main w).calls
    ∧ ImageOption.WithTransport Transport.RetryTransport
        ∈ imageOpts ⟨src.Username, src.Password⟩
    ∧ Call.Image digestRef (digestOpts ⟨src.Username, src.Password⟩) ∈ (main w).calls
    ∧ ∀ t, ImageOption.WithTransport t ∉ digestOpts ⟨src.Username, src.Password⟩ := by
  have hmem : Call.Image n (imageOpts ⟨src.Username, src.Password⟩) ∈ (main w).calls
      ∧ Call.Image digestRef (digestOpts ⟨src.Username, src.Password⟩) ∈ (main w).calls := by
    cases hi : w.RemoteImage digestRef (digestOpts ⟨src.Username, src.Password⟩) with
    | error e => simp [main, hreq, hn, hlogin, himage, hd, hprior, hne, hdref, hi, fatal]
    | ok digestImage =>
      cases hdd : digestImage.Digest with
      | error e =>
        cases hm : missingDigest e <;>
          simp [main, hreq, hn, hlogin, himage, hd, hprior, hne, hdref, hi, hdd, hm, fatal,
            emit]
      | ok d0 =>
        simp [main, hreq, hn, hlogin, himage, hd, hprior, hne, hdref, hi, hdd, emit]
  refine ⟨hmem.1, by simp [imageOpts], hmem.2, ?_⟩
  intro t
  unfold digestOpts
  split <;> simp

/-- Witness of C7, the code at the failing input: prior version `oldDigest`,
fresh digest `newDigest`, once without credentials and once with the static
credentials `ci`/`secret`.  In both runs the pinned reference is opened
without a transport option. -/
theorem pinned_fetch_lacks_the_retry_transport_witness :
    (Call.Image ⟨"library/busybox@" ++ oldDigest⟩ []
        ∈ (main (busyboxWorld (some ⟨oldDigest⟩) (.ok ⟨.ok oldDigest⟩))).calls
      ∧ ImageOption.WithTransport Transport.RetryTransport ∉ ([] : List ImageOption))
    ∧ (Call.Image ⟨"library/busybox@" ++ oldDigest⟩ [.WithAuth ⟨"ci", "secret"⟩]
        ∈ (main (staticWorld "ci" "secret" (some ⟨oldDigest⟩) (.ok ⟨.ok oldDigest⟩))).calls
      ∧ ImageOption.WithTransport Transport.RetryTransport
          ∉ [ImageOption.WithAuth ⟨"ci", "secret"⟩]) :=
  have h1 := pinned_fetch_lacks_the_retry_transport
    (busyboxWorld (some ⟨oldDigest⟩) (.ok ⟨.ok oldDigest⟩))
    { Source := busybox, Version := some ⟨oldDigest⟩ } ⟨"library/busybox:latest"⟩
    busybox [] ⟨.ok newDigest⟩ newDigest ⟨oldDigest⟩ ⟨"library/busybox@" ++ oldDigest⟩
    rfl rfl rfl rfl rfl rfl (by decide) rfl
  have h2 := pinned_fetch_lacks_the_retry_transport
    (staticWorld "ci" "secret" (some ⟨oldDigest⟩) (.ok ⟨.ok oldDigest⟩))
    { Source := { busybox with Username := "ci", Password := "secret" },
      Version := some ⟨oldDigest⟩ }
    ⟨"library/busybox:latest"⟩ { busybox with Username := "ci", Password := "secret" } []
    ⟨.ok newDigest⟩ newDigest ⟨oldDigest⟩ ⟨"library/busybox@" ++ oldDigest⟩
    rfl rfl rfl rfl rfl rfl (by decide) rfl
  ⟨⟨h1.2.2.1, h1.2.2.2 Transport.RetryTransport⟩, ⟨h2.2.2.1, h2.2.2.2 Transport.RetryTransport⟩⟩

/-- The complete call traces of the two runs of the witness of C7: the
current digest is fetched through the retrying transport, the pinned
reference is not. -/
theorem pinned_fetch_traces :
    (main (busyboxWorld (some ⟨oldDigest⟩) (.ok ⟨.ok oldDigest⟩))).calls =
      [Call.Image ⟨"library/busybox:latest"⟩ [.WithTransport .RetryTransport],
       Call.Digest ⟨"library/busybox:latest"⟩,
       Call.Image ⟨"library/busybox@" ++ oldDigest⟩ [],
       Call.Digest ⟨"library/busybox@" ++ oldDigest⟩]
    ∧ (main (staticWorld "ci" "secret" (some ⟨oldDigest⟩) (.ok ⟨.ok oldDigest⟩))).calls =
      [Call.Image ⟨"library/busybox:latest"⟩
         [.WithTransport .RetryTransport, .WithAuth ⟨"ci", "secret"⟩],
       Call.Digest ⟨"library/busybox:latest"⟩,
       Call.Image ⟨"library/busybox@" ++ oldDigest⟩ [.WithAuth ⟨"ci", "secret"⟩],
       Call.Digest ⟨"library/busybox@" ++ oldDigest⟩] := by
  decide

/-- C8, counterexample: two requests that differ only in their configured
region, `us-east-1` and `ap-south-1`.  Both runs make the same calls, the token
call goes to `eu-west-2` in both, and no call goes to the configured region. -/
theorem token_region_is_not_the_configured_region :
    (ecrSource "us-east-1").Region = "us-east-1"
    ∧ (ecrSource "ap-south-1").Region = "ap-south-1"
    ∧ (main (ecrWorld "us-east-1" tokenGranted)).calls.head?
        = some (Call.GetAuthorizationToken "eu-west-2")
    ∧ (main (ecrWorld "ap-south-1" tokenGranted)).calls.head?
        = some (Call.GetAuthorizationToken "eu-west-2")
    ∧ Call.GetAuthorizationToken "us-east-1" ∉ (main (ecrWorld "us-east-1" tokenGranted)).calls
    ∧ Call.GetAuthorizationToken "ap-south-1" ∉ (main (ecrWorld "ap-south-1" tokenGranted)).calls := by
  decide

/-- C8, amended: in every run with the token exchange enabled that reaches the
exchange (the request decodes, the tag reference parses, a session is
created), the first network call is the token call scoped to the fixed region
`eu-west-2`, and no token call is scoped to any other region, whatever region
the source configures. -/
theorem token_exchange_is_scoped_to_eu_west_2 (w : World) (req : CheckRequest) (n : Reference)
    (hreq : w.Decode = .ok req)
    (hn : w.ParseReference req.Source.Name = .ok n)
    (hecr : req.Source.Ecr = true)
    (hs : w.NewSession = .ok ()) :
    (main w).calls.head? = some (Call.GetAuthorizationToken "eu-west-2")
      ∧ ∀ region, Call.GetAuthorizationToken region ∈ (main w).calls → region = "eu-west-2" := by
  obtain ⟨rest, hcalls, hrest⟩ := main_calls w req n hreq hn
  rw [hcalls, ecrLogin_calls_of_ecr w req.Source hecr hs]
  refine ⟨rfl, ?_⟩
  intro region hmem
  simp only [List.singleton_append, List.mem_cons, Call.GetAuthorizationToken.injEq] at hmem
  rcases hmem with h | h
  · exact h
  · have := hrest _ h
    simp [Call.isFetch] at this

/-- Witness of C8 amended: a source configured for `us-east-1`. -/
theorem token_exchange_is_scoped_to_eu_west_2_witness :
    (main (ecrWorld "us-east-1" tokenGranted)).calls.head?
        = some (Call.GetAuthorizationToken "eu-west-2")
      ∧ Call.GetAuthorizationToken "eu-west-2" ∈ (main (ecrWorld "us-east-1" tokenGranted)).calls :=
  ⟨(token_exchange_is_scoped_to_eu_west_2 (ecrWorld "us-east-1" tokenGranted)
      { Source := ecrSource "us-east-1", Version := some ⟨oldDigest⟩ } ⟨"team/app:latest"⟩
      rfl rfl rfl rfl).1, by decide⟩

/-- The options of both fetches carry an authenticator exactly when it is the
given one and both of its fields are non-empty. -/
theorem withAuth_mem_opts (auth a : Basic) :
    (ImageOption.WithAuth a ∈ imageOpts auth ↔ a = auth ∧ auth.Username ≠ "" ∧ auth.Password ≠ "")
    ∧ (ImageOption.WithAuth a ∈ digestOpts auth
        ↔ a = auth ∧ auth.Username ≠ "" ∧ auth.Password ≠ "") := by
  unfold imageOpts digestOpts
  by_cases h : auth.Username ≠ "" ∧ auth.Password ≠ ""
  · simp [h]
  · simp only [h, if_false]
    simp

/-! ## Invariants of the response and of authentication -/

/-- C9: for every run, whatever the outside world answers: a response that is
written holds one or two versions, is the only thing written, and its last
entry is the version of the digest `d` that the fetch of the current digest
returned; and when the fetch of the current digest fails (the image does not
open, or asking it for its digest fails), the run exits with status 1 and
writes nothing. -/
theorem response_has_one_or_two_versions_and_ends_with_current (w : World) :
    (∀ r, Output.json r ∈ (main w).stdout →
        1 ≤ r.length ∧ r.length ≤ 2 ∧ (main w).stdout = [Output.json r]
        ∧ ∃ req n src cs image d,
            w.Decode = .ok req
            ∧ w.ParseReference req.Source.Name = .ok n
            ∧ ecrLogin w req.Source = .proceed src cs
            ∧ w.RemoteImage n (imageOpts ⟨src.Username, src.Password⟩) = .ok image
            ∧ image.Digest = .ok d
            ∧ r.getLast? = some { Digest := d })
    ∧ (∀ req n src cs,
        w.Decode = .ok req →
        w.ParseReference req.Source.Name = .ok n →
        ecrLogin w req.Source = .proceed src cs →
        ((∃ err, w.RemoteImage n (imageOpts ⟨src.Username, src.Password⟩) = .error err)
          ∨ ∃ image err, w.RemoteImage n (imageOpts ⟨src.Username, src.Password⟩) = .ok image
              ∧ image.Digest = .error err) →
        (main w).status = 1 ∧ (main w).status ≠ 0 ∧ (main w).stdout = []) := by
  constructor
  · intro r hr
    cases hreq : w.Decode with
    | error e => simp [main, hreq, fatal] at hr
    | ok req =>
      cases hn : w.ParseReference req.Source.Name with
      | error e => simp [main, hreq, hn, fatal] at hr
      | ok n =>
        cases hl : ecrLogin w req.Source with
        | panic msg cs => simp [main, hreq, hn, hl, panicked] at hr
        | returned printed cs => simp [main, hreq, hn, hl] at hr
        | proceed src cs =>
          cases hi : w.RemoteImage n (imageOpts ⟨src.Username, src.Password⟩) with
          | error e => simp [main, hreq, hn, hl, hi, fatal] at hr
          | ok image =>
            cases hd : image.Digest with
            | error e => simp [main, hreq, hn, hl, hi, hd, fatal] at hr
            | ok d =>
              have key : 1 ≤ r.length ∧ r.length ≤ 2 ∧ (main w).stdout = [Output.json r]
                  ∧ r.getLast? = some { Digest := d } := by
                rcases main_after_digest w req n src cs image d hreq hn hl hi hd with
                  ⟨_, h⟩ | ⟨_, prior, _, h⟩ | ⟨_, h⟩
                · rw [h] at hr
                  simp only [List.mem_singleton, Output.json.injEq] at hr
                  subst hr
                  exact ⟨by simp, by simp, h, rfl⟩
                · rw [h] at hr
                  simp only [List.mem_singleton, Output.json.injEq] at hr
                  subst hr
                  exact ⟨by simp, by simp, h, rfl⟩
                · rw [h] at hr
                  simp at hr
              exact ⟨key.1, key.2.1, key.2.2.1, req, n, src, cs, image, d, rfl, hn, hl, hi, hd,
                key.2.2.2⟩
  · intro req n src cs hreq hn hl hfail
    rcases hfail with ⟨err, hi⟩ | ⟨image, err, hi, hd⟩
    · simp [main, hreq, hn, hl, hi, fatal]
    · simp [main, hreq, hn, hl, hi, hd, fatal]

/-- Witness of C9: the response `[old, new]` of a run whose prior version
still resolves, and a run against an unreachable registry. -/
theorem response_has_one_or_two_versions_and_ends_with_current_witness :
    ((1 ≤ [(⟨oldDigest⟩ : Version), ⟨newDigest⟩].length
      ∧ [(⟨oldDigest⟩ : Version), ⟨newDigest⟩].length ≤ 2
      ∧ (main (busyboxWorld (some ⟨oldDigest⟩) (.ok ⟨.ok oldDigest⟩))).stdout
          = [Output.json [⟨oldDigest⟩, ⟨newDigest⟩]]
      ∧ ∃ req n src cs image d,
          (busyboxWorld (some ⟨oldDigest⟩) (.ok ⟨.ok oldDigest⟩)).Decode = .ok req
          ∧ (busyboxWorld (some ⟨oldDigest⟩) (.ok ⟨.ok oldDigest⟩)).ParseReference
              req.Source.Name = .ok n
          ∧ ecrLogin (busyboxWorld (some ⟨oldDigest⟩) (.ok ⟨.ok oldDigest⟩)) req.Source
              = .proceed src cs
          ∧ (busyboxWorld (some ⟨oldDigest⟩) (.ok ⟨.ok oldDigest⟩)).RemoteImage n
              (imageOpts ⟨src.Username, src.Password⟩) = .ok image
          ∧ image.Digest = .ok d
          ∧ [(⟨oldDigest⟩ : Version), ⟨newDigest⟩].getLast? = some { Digest := d }))
    ∧ ((main (unreachableWorld none)).status = 1
      ∧ (main (unreachableWorld none)).status ≠ 0
      ∧ (main (unreachableWorld none)).stdout = []) :=
  ⟨(response_has_one_or_two_versions_and_ends_with_current
      (busyboxWorld (some ⟨oldDigest⟩) (.ok ⟨.ok oldDigest⟩))).1
      [⟨oldDigest⟩, ⟨newDigest⟩] (by decide),
   (response_has_one_or_two_versions_and_ends_with_current (unreachableWorld none)).2
      { Source := busybox, Version := none } ⟨"library/busybox:latest"⟩ busybox []
      rfl rfl rfl (Or.inl ⟨.other "connection refused", rfl⟩)⟩

/-- C10: in every run that reaches the registry, with `src` the source as the
token exchange left it: a call that opens an image carries an authenticator
exactly when both `src.Username` and `src.Password` are non-empty, and then it
is the pair of the two; hence any two such calls of one run, the fetch of the
current digest and the fetch of the pinned reference, agree on whether they
are authenticated. -/
theorem auth_attached_iff_both_credentials_nonempty (w : World) (req : CheckRequest)
    (n : Reference) (src : Source) (cs : List Call)
    (hreq : w.Decode = .ok req)
    (hn : w.ParseReference req.Source.Name = .ok n)
    (hlogin : ecrLogin w req.Source = .proceed src cs) :
    (∀ ref opts, Call.Image ref opts ∈ (main w).calls →
      ∀ auth, ImageOption.WithAuth auth ∈ opts
        ↔ auth = ⟨src.Username, src.Password⟩ ∧ src.Username ≠ "" ∧ src.Password ≠ "")
    ∧ (∀ ref₁ opts₁ ref₂ opts₂,
        Call.Image ref₁ opts₁ ∈ (main w).calls → Call.Image ref₂ opts₂ ∈ (main w).calls →
        ((∃ auth, ImageOption.WithAuth auth ∈ opts₁) ↔ ∃ auth, ImageOption.WithAuth auth ∈ opts₂)) := by
  have hall : ∀ ref opts, Call.Image ref opts ∈ (main w).calls →
      ∀ auth, ImageOption.WithAuth auth ∈ opts
        ↔ auth = ⟨src.Username, src.Password⟩ ∧ src.Username ≠ "" ∧ src.Password ≠ "" := by
    intro ref opts hmem auth
    rcases main_image_calls w req n src cs hreq hn hlogin ref opts hmem with h | h
    · rw [h]; exact (withAuth_mem_opts ⟨src.Username, src.Password⟩ auth).1
    · rw [h]; exact (withAuth_mem_opts ⟨src.Username, src.Password⟩ auth).2
  refine ⟨hall, ?_⟩
  intro ref₁ opts₁ ref₂ opts₂ h₁ h₂
  constructor
  · rintro ⟨auth, h⟩
    exact ⟨auth, (hall ref₂ opts₂ h₂ auth).2 ((hall ref₁ opts₁ h₁ auth).1 h)⟩
  · rintro ⟨auth, h⟩
    exact ⟨auth, (hall ref₁ opts₁ h₁ auth).2 ((hall ref₂ opts₂ h₂ auth).1 h)⟩

/-- Witness of C10: with the credentials `ci`/`secret` the pinned fetch carries
the authenticator; with the user name `ci` and an empty password the fetch of
the current digest carries none. -/
theorem auth_attached_iff_both_credentials_nonempty_witness :
    (ImageOption.WithAuth ⟨"ci", "secret"⟩ ∈ [ImageOption.WithAuth ⟨"ci", "secret"⟩]
      ↔ (⟨"ci", "secret"⟩ : Basic) = ⟨"ci", "secret"⟩ ∧ "ci" ≠ "" ∧ "secret" ≠ "")
    ∧ (ImageOption.WithAuth ⟨"ci", ""⟩ ∈ [ImageOption.WithTransport Transport.RetryTransport]
      ↔ (⟨"ci", ""⟩ : Basic) = ⟨"ci", ""⟩ ∧ "ci" ≠ "" ∧ ("" : String) ≠ "") :=
  ⟨(auth_attached_iff_both_credentials_nonempty
      (staticWorld "ci" "secret" (some ⟨oldDigest⟩) (.ok ⟨.ok oldDigest⟩))
      { Source := { busybox with Username := "ci", Password := "secret" },
        Version := some ⟨oldDigest⟩ }
      ⟨"library/busybox:latest"⟩ { busybox with Username := "ci", Password := "secret" } []
      rfl rfl rfl).1
      ⟨"library/busybox@" ++ oldDigest⟩ [ImageOption.WithAuth ⟨"ci", "secret"⟩] (by decide)
      ⟨"ci", "secret"⟩,
   (auth_attached_iff_both_credentials_nonempty
      (staticWorld "ci" "" (some ⟨oldDigest⟩) (.ok ⟨.ok oldDigest⟩))
      { Source := { busybox with Username := "ci", Password := "" },
        Version := some ⟨oldDigest⟩ }
      ⟨"library/busybox:latest"⟩ { busybox with Username := "ci", Password := "" } []
      rfl rfl rfl).1
      ⟨"library/busybox:latest"⟩ [ImageOption.WithTransport Transport.RetryTransport]
      (by decide) ⟨"ci", ""⟩⟩

end Check
